import Mathlib

/-!
Verification of balancy/yellow_press_rate against its specification.

The repository has three Python source files:
  * `articles_handlers.py` — per-URL article task (`process_article`), the
    batch orchestrator (`process_articles`), and lexicon loading
    (`gather_charged_words`);
  * `main.py` — a near-duplicate variant of the same task (`process_article`)
    plus a batch entry point `main` over a fixed article list;
  * `server.py` — the FastAPI handler `read_root`.

External collaborators (aiohttp transport, `adapters.inosmi_ru.sanitize`,
`text_tools.split_by_words`, `text_tools.calculate_yellow_press_rate`,
file reading, the `async_timeout` deadline and the `timeit` clock) are not
part of the analysed source; their observable behavior is supplied through
an explicit environment `Env`, typed by the failure modes the collaborators
are documented to produce (aiohttp client errors and asyncio timeouts from
the transport, `ArticleNotFound` from the sanitizer, a timeout from the
deadline around `split_by_words`).  Concurrency in the orchestrators is
modelled by recording each task's single append in input order; the claims
settled here (cardinality, per-outcome field invariants) do not depend on
completion order.  Wall-clock readings of `timeit` are the abstract value
`Env.elapsed`; rational numbers stand for Python floats, whose arithmetic
is never exercised by the claims.
-/

/-- Status taxonomy of `ProcessingStatus` (identical in `articles_handlers.py`
and `main.py`). -/
inductive ProcessingStatus
| OK
| FETCH_ERROR
| PARSE_ERROR
| TIMEOUT_ERROR
deriving DecidableEq

/-- The `.value` payload of each enum member: the Python dataclasses store the
status as this string. -/
def ProcessingStatus.value : ProcessingStatus → String
| ProcessingStatus.OK => "OK"
| ProcessingStatus.FETCH_ERROR => "FETCH_ERROR"
| ProcessingStatus.PARSE_ERROR => "PARSE_ERROR"
| ProcessingStatus.TIMEOUT_ERROR => "TIMEOUT_ERROR"

/-- Observable behavior of the aiohttp transport (`session.get` +
`raise_for_status` + `response.text`) on one URL: the body text, or an
`aiohttp.ClientError` (network failure, malformed URL, non-2xx status), or an
`asyncio.TimeoutError` (client-side timeout surfacing during the request). -/
inductive FetchResult
| ok (html : String)
| clientError
| timeoutError
deriving DecidableEq

/-- Observable behavior of `adapters.inosmi_ru.sanitize(html, plaintext=True)`:
the plaintext, or an `ArticleNotFound` exception. -/
inductive SanitizeResult
| ok (text : String)
| articleNotFound
deriving DecidableEq

/-- The Python exception classes distinguished by the `except` clauses of the
two `process_article` variants. -/
inductive PyExc
| clientError
| timeoutError
| articleNotFound
deriving DecidableEq

/-- Collaborator behaviors for one run.  `transport` is the aiohttp session
behavior per URL; `sanitize` the adapter per HTML document; `split` is
`split_by_words(morph, ·)` with the morphological analyzer baked in
(deterministic per the spec); `tokTimesOut text budget` tells whether that
`split_by_words` call exceeds the `async_timeout` budget; `rate` is
`calculate_yellow_press_rate`; `elapsed` is the reading of the `timeit`
clock; `fileContents` is the aiofiles read per path. -/
structure Env where
  transport : String → FetchResult
  sanitize : String → SanitizeResult
  split : String → List String
  tokTimesOut : String → ℚ → Bool
  rate : List String → List String → ℚ
  elapsed : ℚ
  fileContents : String → String

def NEGATIVE_WORDS_PATH : String := "charged_dict/negative_words.txt"

def POSITIVE_WORDS_PATH : String := "charged_dict/positive_words.txt"

/-- `TIMEOUT = 3` in both `articles_handlers.py` and `main.py`. -/
def TIMEOUT : ℚ := 3

/-- The fixed URL list of `main.py`. -/
def TEST_ARTICLES : List String :=
  [ "https://inosmi.ru/20220303/kitay-shos-253268048.html"
  , "https://inosmi.ru/20220302/ssha-253253195.html"
  , "https://inosmi.ru/20220303/yadernoe-oruzhie-253265698.html"
  , "https://inosmi.ru/20220303/ukraina-253269849.html"
  , "https://inosmi.ru/20220303/torgovlya-253272049.html"
  , "https://random.random/random.html"
  , "https://lenta.ru/brief/2021/08/26/afg_terror/"
  , "just_some_phrase"
  ]

/-- `fetch(session, url)` from both files: performs the request and raises the
transport's exception when it fails. -/
def fetch (env : Env) (url : String) : Except PyExc String :=
  match env.transport url with
  | FetchResult.ok html => Except.ok html
  | FetchResult.clientError => Except.error PyExc.clientError
  | FetchResult.timeoutError => Except.error PyExc.timeoutError

/-- The sanitize stage as an exception-typed call:
`sanitize(article_html, plaintext=True)` raises `ArticleNotFound` on failure. -/
def sanitizeE (env : Env) (html : String) : Except PyExc String :=
  match env.sanitize html with
  | SanitizeResult.ok text => Except.ok text
  | SanitizeResult.articleNotFound => Except.error PyExc.articleNotFound

/-- The tokenization stage: `split_by_words(morph, text)` guarded by
`async_timeout.timeout(budget)`, which raises `asyncio.TimeoutError` when the
call exceeds the budget (partial results are discarded). -/
def tokenizeE (env : Env) (text : String) (budget : ℚ) : Except PyExc (List String) :=
  if env.tokTimesOut text budget then Except.error PyExc.timeoutError
  else Except.ok (env.split text)

/-- `extract_file_content(filename)` (identical in both files): reads the whole
file as text. -/
def extract_file_content (env : Env) (filename : String) : String :=
  env.fileContents filename

/-- `gather_charged_words(morph)` (identical in `articles_handlers.py` and
`main.py`): reads the negative and positive word files, splits each through
`split_by_words`, and returns `[*negative_words, *positive_words]` — a list
concatenation. -/
def gather_charged_words (env : Env) : List String :=
  let negative_text := extract_file_content env NEGATIVE_WORDS_PATH
  let negative_words := env.split negative_text
  let positive_text := extract_file_content env POSITIVE_WORDS_PATH
  let positive_words := env.split positive_text
  negative_words ++ positive_words

namespace ArticlesHandlers

/-- The `ArticleAnalyseStats` dataclass of `articles_handlers.py`: fields
`url`, `status`, `rate` (optional, default `None`), `words_count` (optional,
default `None`).  It has no time field. -/
structure ArticleAnalyseStats where
  url : String
  status : String
  rate : Option ℚ
  words_count : Option ℕ
deriving DecidableEq

/-- The body of the single `try` block of `process_article` in
`articles_handlers.py`: fetch, then sanitize, then tokenize under the
timeout, propagating the first exception. -/
def try_body (env : Env) (url : String) (timeout : ℚ) : Except PyExc (List String) :=
  match fetch env url with
  | Except.error e => Except.error e
  | Except.ok article_html =>
    match sanitizeE env article_html with
    | Except.error e => Except.error e
    | Except.ok article_text => tokenizeE env article_text timeout

/-- `process_article` of `articles_handlers.py` (the stats it appends):
one `try` around all three stages with `except aiohttp.ClientError` →
`FETCH_ERROR`, `except asyncio.TimeoutError` → `TIMEOUT_ERROR`,
`except ArticleNotFound` → `PARSE_ERROR`, and an `else` branch computing the
rate and word count. -/
def process_article (env : Env) (charged_words : List String) (url : String)
    (timeout : ℚ) : ArticleAnalyseStats :=
  match try_body env url timeout with
  | Except.error PyExc.clientError =>
      ⟨url, ProcessingStatus.FETCH_ERROR.value, none, none⟩
  | Except.error PyExc.timeoutError =>
      ⟨url, ProcessingStatus.TIMEOUT_ERROR.value, none, none⟩
  | Except.error PyExc.articleNotFound =>
      ⟨url, ProcessingStatus.PARSE_ERROR.value, none, none⟩
  | Except.ok article_words =>
      ⟨url, ProcessingStatus.OK.value,
        some (env.rate article_words charged_words),
        some article_words.length⟩

/-- `process_article` of `articles_handlers.py` as an action on the shared
`results` list, keeping the possibility of an exception escaping the task in
the return type.  Each `except` clause builds its stats and the `finally`
block appends them; every constructor of `PyExc` is caught, so no arm
produces `Except.error`. -/
def process_article_run (env : Env) (charged_words : List String) (url : String)
    (timeout : ℚ) (results : List ArticleAnalyseStats) :
    Except PyExc (List ArticleAnalyseStats) :=
  match try_body env url timeout with
  | Except.error PyExc.clientError =>
      Except.ok (results ++ [⟨url, ProcessingStatus.FETCH_ERROR.value, none, none⟩])
  | Except.error PyExc.timeoutError =>
      Except.ok (results ++ [⟨url, ProcessingStatus.TIMEOUT_ERROR.value, none, none⟩])
  | Except.error PyExc.articleNotFound =>
      Except.ok (results ++ [⟨url, ProcessingStatus.PARSE_ERROR.value, none, none⟩])
  | Except.ok article_words =>
      Except.ok (results ++
        [⟨url, ProcessingStatus.OK.value,
          some (env.rate article_words charged_words),
          some article_words.length⟩])

/-- `process_articles(urls)` of `articles_handlers.py`: builds the charged
lexicon once, then runs one `process_article` task per URL (default timeout)
against the shared `results` list.  Task completion order is abstracted as
input order; each task contributes exactly its own single append. -/
def process_articles (env : Env) (urls : List String) : List ArticleAnalyseStats :=
  let charged_words := gather_charged_words env
  urls.foldl
    (fun results url => results ++ [process_article env charged_words url TIMEOUT]) []

end ArticlesHandlers

namespace MainPy

/-- The `ArticleAnalyseStats` dataclass of `main.py`: same fields as the
`articles_handlers.py` variant plus a non-optional `time_took` float with
default `0.0`. -/
structure ArticleAnalyseStats where
  url : String
  status : String
  time_took : ℚ
  rate : Option ℚ
  words_count : Option ℕ
deriving DecidableEq

/-- `process_article` of `main.py` (the stats it appends): three separate
`try` blocks with early returns.  The fetch block catches
`aiohttp.ClientError` → `FETCH_ERROR` and `asyncio.exceptions.TimeoutError`
→ `TIMEOUT_ERROR`; the sanitize block catches `ArticleNotFound` →
`PARSE_ERROR`; the tokenize block, inside `with timeit() as t`, catches
`asyncio.TimeoutError` → `TIMEOUT_ERROR` with `t()` recorded; the success
path records `t()`, the rate and the word count.  Stats built before
tokenization leave `time_took` at its `0.0` default. -/
def process_article (env : Env) (charged_words : List String) (url : String) :
    ArticleAnalyseStats :=
  match env.transport url with
  | FetchResult.clientError =>
      ⟨url, ProcessingStatus.FETCH_ERROR.value, 0, none, none⟩
  | FetchResult.timeoutError =>
      ⟨url, ProcessingStatus.TIMEOUT_ERROR.value, 0, none, none⟩
  | FetchResult.ok article_html =>
    match env.sanitize article_html with
    | SanitizeResult.articleNotFound =>
        ⟨url, ProcessingStatus.PARSE_ERROR.value, 0, none, none⟩
    | SanitizeResult.ok article_text =>
      if env.tokTimesOut article_text TIMEOUT then
        ⟨url, ProcessingStatus.TIMEOUT_ERROR.value, env.elapsed, none, none⟩
      else
        let article_words := env.split article_text
        ⟨url, ProcessingStatus.OK.value, env.elapsed,
          some (env.rate article_words charged_words),
          some article_words.length⟩

/-- `process_article` of `main.py` as an action on the shared `results` list,
with its exception-handling structure made explicit: each `try` block catches
only the exception classes named in the source, and any other exception at
that point would escape the task (the `Except.error e` fall-through arms). -/
def process_article_run (env : Env) (charged_words : List String) (url : String)
    (results : List ArticleAnalyseStats) :
    Except PyExc (List ArticleAnalyseStats) :=
  match fetch env url with
  | Except.error PyExc.clientError =>
      Except.ok (results ++ [⟨url, ProcessingStatus.FETCH_ERROR.value, 0, none, none⟩])
  | Except.error PyExc.timeoutError =>
      Except.ok (results ++ [⟨url, ProcessingStatus.TIMEOUT_ERROR.value, 0, none, none⟩])
  | Except.error e => Except.error e
  | Except.ok article_html =>
    match sanitizeE env article_html with
    | Except.error PyExc.articleNotFound =>
        Except.ok (results ++ [⟨url, ProcessingStatus.PARSE_ERROR.value, 0, none, none⟩])
    | Except.error e => Except.error e
    | Except.ok article_text =>
      match tokenizeE env article_text TIMEOUT with
      | Except.error PyExc.timeoutError =>
          Except.ok (results ++
            [⟨url, ProcessingStatus.TIMEOUT_ERROR.value, env.elapsed, none, none⟩])
      | Except.error e => Except.error e
      | Except.ok article_words =>
          Except.ok (results ++
            [⟨url, ProcessingStatus.OK.value, env.elapsed,
              some (env.rate article_words charged_words),
              some article_words.length⟩])

/-- The result collection built by `main()` of `main.py`: one
`process_article` task per URL of `TEST_ARTICLES` against the shared
`results` list, with the charged lexicon built once. -/
def main (env : Env) : List ArticleAnalyseStats :=
  let charged_words := gather_charged_words env
  TEST_ARTICLES.foldl
    (fun results url => results ++ [process_article env charged_words url]) []

end MainPy

/-- Splitting a character list on a separator character, accumulating the
current chunk in reverse: the executable model of Python `str.split(sep)`
for a one-character separator (every occurrence splits; no chunk is
dropped, so the empty string yields one empty chunk). -/
def splitCharsOn (sep : Char) : List Char → List Char → List String
  | [], acc => [String.mk acc.reverse]
  | c :: cs, acc =>
    if c = sep then String.mk acc.reverse :: splitCharsOn sep cs []
    else splitCharsOn sep cs (c :: acc)

/-- Python `s.split(sep)` for a one-character separator. -/
def pySplit (s : String) (sep : Char) : List String := splitCharsOn sep s.data []

namespace Server

/-- Modelled from the spec: `server.py` imports `analyse_articles` from
`main`, but `src/main.py` defines no function of that name (only `main`),
so the batch function behind the HTTP handler is missing from the analysed
source.  Per the spec's batch contract (§4.5, §6), `analyze(urls)` returns
one `ArticleOutcome` per input URL, each produced by the article task with
the shared charged lexicon. -/
def analyse_articles (env : Env) (urls : List String) :
    List MainPy.ArticleAnalyseStats :=
  let charged_words := gather_charged_words env
  urls.map (fun url => MainPy.process_article env charged_words url)

/-- The runtime error raised by `urls.split(',')` when `urls` is `None`:
`AttributeError` on `NoneType`. -/
inductive ServerError
| attributeErrorNoneSplit
deriving DecidableEq

/-- The JSON body `{"urls": [...]}` returned by `read_root`, each entry the
`asdict` of one outcome. -/
structure ResponseBody where
  urls : List MainPy.ArticleAnalyseStats
deriving DecidableEq

/-- `read_root(urls)` of `server.py`: splits the query string on commas and
analyses every resulting URL; the source performs no validation of the URL
count.  When `urls` is `None`, `urls.split(',')` raises before any response
is built. -/
def read_root (env : Env) (urls : Option String) : Except ServerError ResponseBody :=
  match urls with
  | none => Except.error ServerError.attributeErrorNoneSplit
  | some s => Except.ok ⟨analyse_articles env (pySplit s ',')⟩

end Server

/-! Concrete collaborator environments used to evaluate the definitions. -/

/-- A concrete environment: every fetch fails with a client error, both
lexicon files hold the single word "bad", splitting is whitespace splitting,
and nothing times out. -/
def sampleEnv : Env :=
  { transport := fun _ => FetchResult.clientError
  , sanitize := fun _ => SanitizeResult.articleNotFound
  , split := fun text => (pySplit text ' ').filter (fun w => w ≠ "")
  , tokTimesOut := fun _ _ => false
  , rate := fun _ _ => 0
  , elapsed := 0
  , fileContents := fun _ => "bad" }

/-- A concrete environment whose transport raises `asyncio.TimeoutError`
during fetch. -/
def fetchTimeoutEnv : Env :=
  { sampleEnv with transport := fun _ => FetchResult.timeoutError }

/-- A concrete environment where fetch and sanitize succeed and tokenization
exceeds its budget, with the clock reading 5. -/
def tokTimeoutEnv : Env :=
  { sampleEnv with
      transport := fun _ => FetchResult.ok "html"
    , sanitize := fun _ => SanitizeResult.ok "some words"
    , tokTimesOut := fun _ _ => true
    , elapsed := 5 }

/-- Identical to `tokTimeoutEnv` except that the clock reads 7. -/
def tokTimeoutEnv7 : Env :=
  { tokTimeoutEnv with elapsed := 7 }

/-- A concrete environment where the whole pipeline succeeds, with the clock
reading 5. -/
def okEnv : Env :=
  { tokTimeoutEnv with tokTimesOut := fun _ _ => false }

/-! Helper lemmas shared by several developments. -/

/-- Folding single appends over a list collects exactly the mapped outcomes. -/
theorem foldl_append_singleton {α : Type} (f : String → α) (urls : List String)
    (acc : List α) :
    urls.foldl (fun results url => results ++ [f url]) acc = acc ++ urls.map f := by
  induction urls generalizing acc with
  | nil => simp
  | cons u rest ih => simp [List.foldl, ih]

/-! Claim theorems. -/

/-- C1: every batch invocation (`process_articles` over an arbitrary URL
list, and `main` over `TEST_ARTICLES`) returns exactly one outcome per input
URL: the results are the input list mapped through the article task, so the
cardinalities agree and duplicate input URLs yield duplicate independent
outcomes (one entry per occurrence). -/
theorem c1_one_outcome_per_url (env : Env) (urls : List String) :
    ArticlesHandlers.process_articles env urls =
      urls.map (fun url =>
        ArticlesHandlers.process_article env (gather_charged_words env) url TIMEOUT) ∧
    (ArticlesHandlers.process_articles env urls).length = urls.length ∧
    MainPy.main env =
      TEST_ARTICLES.map (fun url =>
        MainPy.process_article env (gather_charged_words env) url) ∧
    (MainPy.main env).length = TEST_ARTICLES.length := by
  refine ⟨?_, ?_, ?_, ?_⟩
  · simp [ArticlesHandlers.process_articles, foldl_append_singleton]
  · simp [ArticlesHandlers.process_articles, foldl_append_singleton]
  · simp [MainPy.main, foldl_append_singleton]
  · simp [MainPy.main, foldl_append_singleton]

/-- C2: for every outcome produced by either `process_article` variant,
`status == OK` holds iff `rate` is present iff `words_count` is present:
the two payload fields are both present or both absent, and both absent
unless the status is `OK`. -/
theorem c2_ok_iff_rate_iff_words (env : Env) (charged_words : List String)
    (url : String) (timeout : ℚ) :
    ((ArticlesHandlers.process_article env charged_words url timeout).status =
        ProcessingStatus.OK.value ↔
      (ArticlesHandlers.process_article env charged_words url timeout).rate.isSome = true) ∧
    ((ArticlesHandlers.process_article env charged_words url timeout).rate.isSome = true ↔
      (ArticlesHandlers.process_article env charged_words url timeout).words_count.isSome = true) ∧
    ((MainPy.process_article env charged_words url).status = ProcessingStatus.OK.value ↔
      (MainPy.process_article env charged_words url).rate.isSome = true) ∧
    ((MainPy.process_article env charged_words url).rate.isSome = true ↔
      (MainPy.process_article env charged_words url).words_count.isSome = true) := by
  have hmain :
      ((MainPy.process_article env charged_words url).status = ProcessingStatus.OK.value ↔
        (MainPy.process_article env charged_words url).rate.isSome = true) ∧
      ((MainPy.process_article env charged_words url).rate.isSome = true ↔
        (MainPy.process_article env charged_words url).words_count.isSome = true) := by
    cases ht : env.transport url with
    | ok article_html =>
      cases hs : env.sanitize article_html with
      | ok article_text =>
        by_cases hto : env.tokTimesOut article_text TIMEOUT <;>
          simp [MainPy.process_article, ht, hs, hto, ProcessingStatus.value]
      | articleNotFound =>
        simp [MainPy.process_article, ht, hs, ProcessingStatus.value]
    | clientError => simp [MainPy.process_article, ht, ProcessingStatus.value]
    | timeoutError => simp [MainPy.process_article, ht, ProcessingStatus.value]
  have hah :
      ((ArticlesHandlers.process_article env charged_words url timeout).status =
          ProcessingStatus.OK.value ↔
        (ArticlesHandlers.process_article env charged_words url timeout).rate.isSome = true) ∧
      ((ArticlesHandlers.process_article env charged_words url timeout).rate.isSome = true ↔
        (ArticlesHandlers.process_article env charged_words url timeout).words_count.isSome = true) := by
    cases ht : env.transport url with
    | ok article_html =>
      cases hs : env.sanitize article_html with
      | ok article_text =>
        by_cases hto : env.tokTimesOut article_text timeout <;>
          simp [ArticlesHandlers.process_article, ArticlesHandlers.try_body, fetch,
            sanitizeE, tokenizeE, ht, hs, hto, ProcessingStatus.value]
      | articleNotFound =>
        simp [ArticlesHandlers.process_article, ArticlesHandlers.try_body, fetch,
          sanitizeE, ht, hs, ProcessingStatus.value]
    | clientError =>
      simp [ArticlesHandlers.process_article, ArticlesHandlers.try_body, fetch, ht,
        ProcessingStatus.value]
    | timeoutError =>
      simp [ArticlesHandlers.process_article, ArticlesHandlers.try_body, fetch, ht,
        ProcessingStatus.value]
  exact ⟨hah.1, hah.2, hmain.1, hmain.2⟩

/-- C4: for every collaborator behavior, each `process_article` variant
appends exactly one outcome to the shared results list — the run returns
`Except.ok` of the input list extended by exactly the task's single stats
record, so no exception escapes the task boundary and no path appends zero
or several outcomes.  For the `main.py` variant this includes showing the
uncaught fall-through arms of its three separate `try` blocks unreachable
under the collaborators' documented failure modes. -/
theorem c4_exactly_one_append (env : Env) (charged_words : List String)
    (url : String) (timeout : ℚ)
    (resultsA : List ArticlesHandlers.ArticleAnalyseStats)
    (resultsM : List MainPy.ArticleAnalyseStats) :
    ArticlesHandlers.process_article_run env charged_words url timeout resultsA =
      Except.ok (resultsA ++
        [ArticlesHandlers.process_article env charged_words url timeout]) ∧
    MainPy.process_article_run env charged_words url resultsM =
      Except.ok (resultsM ++ [MainPy.process_article env charged_words url]) := by
  constructor
  · cases h : ArticlesHandlers.try_body env url timeout with
    | ok words =>
      simp [ArticlesHandlers.process_article_run, ArticlesHandlers.process_article, h]
    | error e =>
      cases e <;>
        simp [ArticlesHandlers.process_article_run, ArticlesHandlers.process_article, h]
  · cases ht : env.transport url with
    | ok article_html =>
      cases hs : env.sanitize article_html with
      | ok article_text =>
        by_cases hto : env.tokTimesOut article_text TIMEOUT <;>
          simp [MainPy.process_article_run, MainPy.process_article, fetch, sanitizeE,
            tokenizeE, ht, hs, hto]
      | articleNotFound =>
        simp [MainPy.process_article_run, MainPy.process_article, fetch, sanitizeE, ht, hs]
    | clientError =>
      simp [MainPy.process_article_run, MainPy.process_article, fetch, ht]
    | timeoutError =>
      simp [MainPy.process_article_run, MainPy.process_article, fetch, ht]

/-- C9: for every URL and every collaborator behavior, the two near-duplicate
task implementations — `process_article` in `main.py` and `process_article`
in `articles_handlers.py` at its default timeout (`TIMEOUT`) — produce
outcomes agreeing on `url`, `status`, `rate` and `words_count`. -/
theorem c9_implementations_agree (env : Env) (charged_words : List String)
    (url : String) :
    (ArticlesHandlers.process_article env charged_words url TIMEOUT).url =
      (MainPy.process_article env charged_words url).url ∧
    (ArticlesHandlers.process_article env charged_words url TIMEOUT).status =
      (MainPy.process_article env charged_words url).status ∧
    (ArticlesHandlers.process_article env charged_words url TIMEOUT).rate =
      (MainPy.process_article env charged_words url).rate ∧
    (ArticlesHandlers.process_article env charged_words url TIMEOUT).words_count =
      (MainPy.process_article env charged_words url).words_count := by
  cases ht : env.transport url with
  | ok article_html =>
    cases hs : env.sanitize article_html with
    | ok article_text =>
      by_cases hto : env.tokTimesOut article_text TIMEOUT <;>
        simp [ArticlesHandlers.process_article, ArticlesHandlers.try_body,
          MainPy.process_article, fetch, sanitizeE, tokenizeE, ht, hs, hto]
    | articleNotFound =>
      simp [ArticlesHandlers.process_article, ArticlesHandlers.try_body,
        MainPy.process_article, fetch, sanitizeE, ht, hs]
  | clientError =>
    simp [ArticlesHandlers.process_article, ArticlesHandlers.try_body,
      MainPy.process_article, fetch, ht]
  | timeoutError =>
    simp [ArticlesHandlers.process_article, ArticlesHandlers.try_body,
      MainPy.process_article, fetch, ht]

/-- C10: when the `urls` query parameter is `None`, `read_root` raises the
`AttributeError` from `None.split(',')` instead of returning any response,
and a JSON body is produced exactly for requests that supply a `urls`
string. -/
theorem c10_none_urls_raises (env : Env) :
    Server.read_root env none =
      Except.error Server.ServerError.attributeErrorNoneSplit ∧
    ∀ s : String, Server.read_root env (some s) =
      Except.ok ⟨Server.analyse_articles env (pySplit s ',')⟩ :=
  ⟨rfl, fun _ => rfl⟩

/-- C5 counterexample: with both lexicon files holding the single word "bad"
and whitespace splitting, `gather_charged_words` returns the list
`["bad", "bad"]`, which contains a duplicate — the result is a list
concatenation, not a set in which duplicate terms collapse. -/
theorem c5_counterexample :
    gather_charged_words sampleEnv = ["bad", "bad"] ∧
    ¬ (gather_charged_words sampleEnv).Nodup := by
  have h : gather_charged_words sampleEnv = ["bad", "bad"] := rfl
  refine ⟨h, ?_⟩
  rw [h]
  decide

/-- C5 amended: `gather_charged_words` returns the concatenation of the two
normalized word lists (negative first, then positive), not a set: a word
belongs to the result exactly when it belongs to either normalized list (so
overlap between the lists causes no error), but duplicate terms are retained
rather than collapsed — the result length is the sum of the two list
lengths. -/
theorem c5_lexicon_concatenation (env : Env) :
    gather_charged_words env =
      env.split (env.fileContents NEGATIVE_WORDS_PATH) ++
        env.split (env.fileContents POSITIVE_WORDS_PATH) ∧
    (∀ w : String, w ∈ gather_charged_words env ↔
      w ∈ env.split (env.fileContents NEGATIVE_WORDS_PATH) ∨
        w ∈ env.split (env.fileContents POSITIVE_WORDS_PATH)) ∧
    (gather_charged_words env).length =
      (env.split (env.fileContents NEGATIVE_WORDS_PATH)).length +
        (env.split (env.fileContents POSITIVE_WORDS_PATH)).length := by
  refine ⟨rfl, ?_, ?_⟩ <;>
    simp [gather_charged_words, extract_file_content]

/-- C3 counterexample: under a transport that raises `asyncio.TimeoutError`
during fetch, both `process_article` variants produce a `TIMEOUT_ERROR`
outcome, not the `FETCH_ERROR` the claim requires for every fetch-stage
failure — so `TIMEOUT_ERROR` is not produced only by the tokenization
stage. -/
theorem c3_counterexample :
    (MainPy.process_article fetchTimeoutEnv [] "http://x").status =
      ProcessingStatus.TIMEOUT_ERROR.value ∧
    (MainPy.process_article fetchTimeoutEnv [] "http://x").status ≠
      ProcessingStatus.FETCH_ERROR.value ∧
    (ArticlesHandlers.process_article fetchTimeoutEnv [] "http://x" TIMEOUT).status =
      ProcessingStatus.TIMEOUT_ERROR.value := by
  refine ⟨rfl, ?_, rfl⟩
  decide

/-- C3 amended: a fetch-stage failure raising `aiohttp.ClientError`
(unreachable host, malformed URL, non-2xx status) yields exactly
`FETCH_ERROR` with no rate or word count in both task variants; but a bare
`asyncio.TimeoutError` raised during fetch yields `TIMEOUT_ERROR`, so
`TIMEOUT_ERROR` is produced by a fetch-stage timeout as well as by the
tokenization deadline. -/
theorem c3_fetch_error_classification (env : Env) (charged_words : List String)
    (url : String) (timeout : ℚ) :
    (env.transport url = FetchResult.clientError →
      (MainPy.process_article env charged_words url).status =
          ProcessingStatus.FETCH_ERROR.value ∧
        (MainPy.process_article env charged_words url).rate = none ∧
        (MainPy.process_article env charged_words url).words_count = none ∧
        (ArticlesHandlers.process_article env charged_words url timeout).status =
          ProcessingStatus.FETCH_ERROR.value ∧
        (ArticlesHandlers.process_article env charged_words url timeout).rate = none ∧
        (ArticlesHandlers.process_article env charged_words url timeout).words_count =
          none) ∧
    (env.transport url = FetchResult.timeoutError →
      (MainPy.process_article env charged_words url).status =
          ProcessingStatus.TIMEOUT_ERROR.value ∧
        (ArticlesHandlers.process_article env charged_words url timeout).status =
          ProcessingStatus.TIMEOUT_ERROR.value) := by
  constructor
  · intro ht
    simp [MainPy.process_article, ArticlesHandlers.process_article,
      ArticlesHandlers.try_body, fetch, ht]
  · intro ht
    simp [MainPy.process_article, ArticlesHandlers.process_article,
      ArticlesHandlers.try_body, fetch, ht]

/-- C3 amended, evaluated: at a transport failing with a client error the
outcome is `FETCH_ERROR` with no rate or word count, and at a transport
raising a timeout during fetch the outcome is `TIMEOUT_ERROR`. -/
theorem c3_fetch_error_classification_witness :
    (sampleEnv.transport "http://x" = FetchResult.clientError ∧
      (MainPy.process_article sampleEnv [] "http://x").status =
        ProcessingStatus.FETCH_ERROR.value) ∧
    (fetchTimeoutEnv.transport "http://x" = FetchResult.timeoutError ∧
      (MainPy.process_article fetchTimeoutEnv [] "http://x").status =
        ProcessingStatus.TIMEOUT_ERROR.value) :=
  ⟨⟨rfl, ((c3_fetch_error_classification sampleEnv [] "http://x" TIMEOUT).1 rfl).1⟩,
   ⟨rfl, ((c3_fetch_error_classification fetchTimeoutEnv [] "http://x" TIMEOUT).2 rfl).1⟩⟩

/-- C6 counterexample: a request supplying eleven comma-separated URLs is not
rejected — `read_root` returns an ordinary `Except.ok` response analysing all
eleven URLs, because the source performs no URL-count validation. -/
theorem c6_counterexample :
    10 < (pySplit "a,b,c,d,e,f,g,h,i,j,k" ',').length ∧
    Server.read_root sampleEnv (some "a,b,c,d,e,f,g,h,i,j,k") =
      Except.ok
        ⟨Server.analyse_articles sampleEnv (pySplit "a,b,c,d,e,f,g,h,i,j,k" ',')⟩ ∧
    (Server.analyse_articles sampleEnv
        (pySplit "a,b,c,d,e,f,g,h,i,j,k" ',')).length = 11 := by
  refine ⟨by decide, rfl, rfl⟩

/-- C6 amended: `read_root` performs no URL-count validation — a request
supplying more than 10 URLs is analysed like any other, returning an
`Except.ok` JSON body with one outcome record per supplied URL instead of a
400-equivalent rejection. -/
theorem c6_no_url_count_validation (env : Env) (s : String)
    (_h : 10 < (pySplit s ',').length) :
    Server.read_root env (some s) =
      Except.ok ⟨Server.analyse_articles env (pySplit s ',')⟩ ∧
    (Server.analyse_articles env (pySplit s ',')).length =
      (pySplit s ',').length :=
  ⟨rfl, by simp [Server.analyse_articles]⟩

/-- C6 amended, evaluated at an eleven-URL request. -/
theorem c6_no_url_count_validation_witness :
    10 < (pySplit "a,b,c,d,e,f,g,h,i,j,k" ',').length ∧
    (Server.read_root sampleEnv (some "a,b,c,d,e,f,g,h,i,j,k") =
      Except.ok
        ⟨Server.analyse_articles sampleEnv (pySplit "a,b,c,d,e,f,g,h,i,j,k" ',')⟩ ∧
    (Server.analyse_articles sampleEnv
        (pySplit "a,b,c,d,e,f,g,h,i,j,k" ',')).length =
      (pySplit "a,b,c,d,e,f,g,h,i,j,k" ',').length) :=
  ⟨by decide,
    c6_no_url_count_validation sampleEnv "a,b,c,d,e,f,g,h,i,j,k" (by decide)⟩

/-- Each outcome of the `main.py` task echoes its input URL, and a non-`OK`
outcome carries neither rate nor word count. -/
theorem mainPy_outcome_fields (env : Env) (charged_words : List String)
    (url : String) :
    (MainPy.process_article env charged_words url).url = url ∧
    ((MainPy.process_article env charged_words url).status ≠
        ProcessingStatus.OK.value →
      (MainPy.process_article env charged_words url).rate = none ∧
      (MainPy.process_article env charged_words url).words_count = none) := by
  cases ht : env.transport url with
  | ok article_html =>
    cases hs : env.sanitize article_html with
    | ok article_text =>
      by_cases hto : env.tokTimesOut article_text TIMEOUT <;>
        simp [MainPy.process_article, ht, hs, hto, ProcessingStatus.value]
    | articleNotFound =>
      simp [MainPy.process_article, ht, hs, ProcessingStatus.value]
  | clientError => simp [MainPy.process_article, ht, ProcessingStatus.value]
  | timeoutError => simp [MainPy.process_article, ht, ProcessingStatus.value]

/-- C7: for every request supplying a `urls` string, the response body holds
one outcome record per requested URL (in request order, echoing each URL
verbatim), and a failing URL appears as a record whose `status` is set and
whose `rate` and `words_count` are absent — never as a missing entry or an
error escaping the handler. -/
theorem c7_one_record_per_url (env : Env) (s : String) :
    Server.read_root env (some s) =
      Except.ok ⟨Server.analyse_articles env (pySplit s ',')⟩ ∧
    (Server.analyse_articles env (pySplit s ',')).length =
      (pySplit s ',').length ∧
    (Server.analyse_articles env (pySplit s ',')).map
        MainPy.ArticleAnalyseStats.url = pySplit s ',' ∧
    ∀ r, r ∈ Server.analyse_articles env (pySplit s ',') →
      r.status ≠ ProcessingStatus.OK.value →
      r.rate = none ∧ r.words_count = none := by
  refine ⟨rfl, by simp [Server.analyse_articles], ?_, ?_⟩
  · simp only [Server.analyse_articles, List.map_map]
    have hfun : (MainPy.ArticleAnalyseStats.url ∘ fun url =>
        MainPy.process_article env (gather_charged_words env) url) = id :=
      funext (fun u => (mainPy_outcome_fields env (gather_charged_words env) u).1)
    rw [hfun, List.map_id]
  · intro r hr hstatus
    simp only [Server.analyse_articles, List.mem_map] at hr
    obtain ⟨u, _, rfl⟩ := hr
    exact (mainPy_outcome_fields env (gather_charged_words env) u).2 hstatus

/-- C7, evaluated: in the response for "a,b" under a failing transport, the
record for URL "a" is present with status `FETCH_ERROR` and no rate or word
count. -/
theorem c7_one_record_per_url_witness :
    ((⟨"a", "FETCH_ERROR", 0, none, none⟩ : MainPy.ArticleAnalyseStats) ∈
      Server.analyse_articles sampleEnv (pySplit "a,b" ',')) ∧
    (⟨"a", "FETCH_ERROR", 0, none, none⟩ : MainPy.ArticleAnalyseStats).status ≠
      ProcessingStatus.OK.value ∧
    (⟨"a", "FETCH_ERROR", 0, none, none⟩ : MainPy.ArticleAnalyseStats).rate =
      none := by
  have hm : (⟨"a", "FETCH_ERROR", 0, none, none⟩ : MainPy.ArticleAnalyseStats) ∈
      Server.analyse_articles sampleEnv (pySplit "a,b" ',') := by decide
  have h := (c7_one_record_per_url sampleEnv "a,b").2.2.2
    (⟨"a", "FETCH_ERROR", 0, none, none⟩ : MainPy.ArticleAnalyseStats) hm
    (by decide)
  exact ⟨hm, by decide, h.1⟩

/-- C8 counterexample: the `articles_handlers.py` dataclass has no
elapsed-time field (its outcomes consist of url, status, rate and
words_count only), so a tokenization-stage `TIMEOUT_ERROR` outcome carries
no elapsed time: two runs identical except for the clock reading (5 vs 7)
produce byte-identical outcomes.  And in `main.py` the `time_took` field is
non-optional with default `0.0`: a `FETCH_ERROR` outcome, whose tokenization
never started, still carries `time_took = 0.0` rather than an absent
field. -/
theorem c8_counterexample :
    tokTimeoutEnv.elapsed = 5 ∧
    tokTimeoutEnv7.elapsed = 7 ∧
    (ArticlesHandlers.process_article tokTimeoutEnv [] "u" TIMEOUT).status =
      ProcessingStatus.TIMEOUT_ERROR.value ∧
    ArticlesHandlers.process_article tokTimeoutEnv [] "u" TIMEOUT =
      ArticlesHandlers.process_article tokTimeoutEnv7 [] "u" TIMEOUT ∧
    (MainPy.process_article sampleEnv [] "u").status =
      ProcessingStatus.FETCH_ERROR.value ∧
    (MainPy.process_article sampleEnv [] "u").time_took = 0 :=
  ⟨rfl, rfl, rfl, rfl, rfl, rfl⟩

/-- C8 amended: in `main.py`, `time_took` is a non-optional field defaulting
to `0.0`: outcomes built before tokenization (`FETCH_ERROR`, `PARSE_ERROR`,
and the fetch-stage `TIMEOUT_ERROR`) carry the default `0.0`, while
tokenization-stage `TIMEOUT_ERROR` and `OK` outcomes carry the measured
elapsed time; the `articles_handlers.py` variant records no elapsed time on
any outcome — its result does not depend on the clock at all. -/
theorem c8_time_field (env : Env) (charged_words : List String)
    (url article_html article_text : String) :
    (env.transport url = FetchResult.clientError →
      (MainPy.process_article env charged_words url).time_took = 0) ∧
    (env.transport url = FetchResult.timeoutError →
      (MainPy.process_article env charged_words url).time_took = 0 ∧
      (MainPy.process_article env charged_words url).status =
        ProcessingStatus.TIMEOUT_ERROR.value) ∧
    (env.transport url = FetchResult.ok article_html →
      env.sanitize article_html = SanitizeResult.articleNotFound →
      (MainPy.process_article env charged_words url).time_took = 0) ∧
    (env.transport url = FetchResult.ok article_html →
      env.sanitize article_html = SanitizeResult.ok article_text →
      env.tokTimesOut article_text TIMEOUT = true →
      (MainPy.process_article env charged_words url).time_took = env.elapsed ∧
      (MainPy.process_article env charged_words url).status =
        ProcessingStatus.TIMEOUT_ERROR.value) ∧
    (env.transport url = FetchResult.ok article_html →
      env.sanitize article_html = SanitizeResult.ok article_text →
      env.tokTimesOut article_text TIMEOUT = false →
      (MainPy.process_article env charged_words url).time_took = env.elapsed ∧
      (MainPy.process_article env charged_words url).status =
        ProcessingStatus.OK.value) ∧
    (∀ q : ℚ, ArticlesHandlers.process_article
        { env with elapsed := q } charged_words url TIMEOUT =
      ArticlesHandlers.process_article env charged_words url TIMEOUT) := by
  refine ⟨?_, ?_, ?_, ?_, ?_, fun q => rfl⟩
  · intro ht
    simp [MainPy.process_article, ht]
  · intro ht
    simp [MainPy.process_article, ht]
  · intro ht hs
    simp [MainPy.process_article, ht, hs]
  · intro ht hs hto
    simp [MainPy.process_article, ht, hs, hto]
  · intro ht hs hto
    simp [MainPy.process_article, ht, hs, hto]

/-- C8 amended, evaluated: a tokenization timeout records the clock reading
5, and a fetch failure leaves `time_took` at its default `0.0`. -/
theorem c8_time_field_witness :
    (tokTimeoutEnv.transport "u" = FetchResult.ok "html" ∧
      tokTimeoutEnv.sanitize "html" = SanitizeResult.ok "some words" ∧
      tokTimeoutEnv.tokTimesOut "some words" TIMEOUT = true ∧
      (MainPy.process_article tokTimeoutEnv [] "u").time_took =
        tokTimeoutEnv.elapsed) ∧
    (sampleEnv.transport "u" = FetchResult.clientError ∧
      (MainPy.process_article sampleEnv [] "u").time_took = 0) :=
  ⟨⟨rfl, rfl, rfl,
      ((c8_time_field tokTimeoutEnv [] "u" "html" "some words").2.2.2.1
        rfl rfl rfl).1⟩,
    ⟨rfl, (c8_time_field sampleEnv [] "u" "html" "some words").1 rfl⟩⟩
